import Mathlib

/-!
Shallow embedding of the transaction risk-scoring and monitoring pipeline of
`src/api/simple_api_server.py` (repository Samarthuday/Automated-Compliance-Risk-Scoring),
together with theorems settling the specification claims about it.

Modelling conventions:
* Python floats are modelled as exact rationals (`ℚ`); the transcendental
  feature values (`np.log1p`, `np.sin`, `np.cos`) are kept symbolic in the
  value type `FVal`, recording their exact rational argument, since no claim
  depends on their numeric value — only on determinism and layout.
* Python `datetime` objects are the record `DateTime`; `datetime.weekday()`
  (Monday = 0) is computed by Zeller's congruence.
* Python's built-in string `hash` (salted per process) is modelled by `pyHash`,
  parameterised by the per-process seed; see its doc comment.
* The trained model (`predict_risk` / `model.predict_proba`) is an external
  capability and is passed in as a `Scorer` parameter.
* Flask responses `(jsonify({'error': ...}), 400)` and `(..., 500)` are the
  constructors `ApiResponse.clientError` and `ApiResponse.serverError`; a
  normal `jsonify(...)` result is `ApiResponse.success`.
* The module-level mutable globals `monitoring_stats`, `recent_alerts`,
  `high_risk_transactions` form the record `ServerState`, threaded explicitly
  through each handler.
-/

namespace ACRS

/-- The four risk levels returned by `get_risk_level`. -/
inductive RiskLevel where
  | MINIMAL | LOW | MEDIUM | HIGH
deriving DecidableEq, Repr

/-- Embeds `get_risk_level` (simple_api_server.py, lines 103-112):
`< 0.2 → MINIMAL`, `< 0.5 → LOW`, `< 0.8 → MEDIUM`, else `HIGH`. -/
def get_risk_level (risk_score : ℚ) : RiskLevel :=
  if risk_score < 1/5 then .MINIMAL
  else if risk_score < 1/2 then .LOW
  else if risk_score < 4/5 then .MEDIUM
  else .HIGH

/-- A parsed timestamp, modelling the fields of a Python `datetime` that the
feature code reads (`hour`, `month`, `weekday()`), plus the remaining
calendar fields needed to compute the weekday. -/
structure DateTime where
  year : Nat
  month : Nat
  day : Nat
  hour : Nat
  minute : Nat
  second : Nat
deriving DecidableEq, Repr

/-- Python `datetime.weekday()` (Monday = 0, ..., Sunday = 6), computed from
the calendar date by Zeller's congruence. -/
def DateTime.weekday (t : DateTime) : Nat :=
  let m := if t.month ≤ 2 then t.month + 12 else t.month
  let y := if t.month ≤ 2 then t.year - 1 else t.year
  let K := y % 100
  let J := y / 100
  let h := (t.day + (13 * (m + 1)) / 5 + K + K / 4 + J / 4 + 5 * J) % 7
  (h + 5) % 7

/-- Decimal value of a digit character, `none` if not a digit. -/
def digitVal (c : Char) : Option Nat :=
  if c.isDigit then some (c.toNat - 48) else none

/-- Two decimal digits as a number. -/
def parse2 : List Char → Option Nat
  | [a, b] => do pure ((← digitVal a) * 10 + (← digitVal b))
  | _ => none

/-- Four decimal digits as a number. -/
def parse4 : List Char → Option Nat
  | [a, b, c, d] => do
      pure ((← digitVal a) * 1000 + (← digitVal b) * 100 + (← digitVal c) * 10 + (← digitVal d))
  | _ => none

/-- Modelled from the spec: `datetime.fromisoformat` (Python standard library,
not part of this repository), restricted to the `YYYY-MM-DDTHH:MM:SS` shape
that the repository itself emits via `datetime.now().isoformat()` truncated to
seconds; every other string is rejected (`ValueError` → `none`).  The spec
describes timestamps as "parsed or defaulted to ingestion time if absent"
with malformed timestamps failing. -/
def fromisoformat (s : String) : Option DateTime :=
  match s.toList with
  | [y1, y2, y3, y4, c1, m1, m2, c2, d1, d2, c3, h1, h2, c4, n1, n2, c5, s1, s2] =>
    if c1 = '-' ∧ c2 = '-' ∧ c3 = 'T' ∧ c4 = ':' ∧ c5 = ':' then do
      let y ← parse4 [y1, y2, y3, y4]
      let mo ← parse2 [m1, m2]
      let d ← parse2 [d1, d2]
      let h ← parse2 [h1, h2]
      let mi ← parse2 [n1, n2]
      let se ← parse2 [s1, s2]
      if 1 ≤ mo ∧ mo ≤ 12 ∧ 1 ≤ d ∧ d ≤ 31 ∧ h ≤ 23 ∧ mi ≤ 59 ∧ se ≤ 59 then
        some ⟨y, mo, d, h, mi, se⟩
      else none
    else none
  | _ => none

/-- Modelled from the spec: Python's built-in string `hash`, which the spec
(§9) notes "is not guaranteed stable across runs/versions" because it is
salted per process.  Modelled as a polynomial hash over the character codes
whose accumulator starts at the per-process salt `seed`: two runs of the
process are two different values of `seed`. -/
def pyHash (seed : Nat) (s : String) : Nat :=
  s.toList.foldl (fun a c => a * 31 + c.toNat) seed

/-- A feature value.  `num` is an exactly-represented numeric value; `log1p`,
`sinTau` and `cosTau` record `np.log1p x`, `np.sin (2πx)` and `np.cos (2πx)`
symbolically with their exact rational argument (the claims about the feature
vector concern determinism and layout, never trigonometric numerics). -/
inductive FVal where
  | num : ℚ → FVal
  | log1p : ℚ → FVal
  | sinTau : ℚ → FVal
  | cosTau : ℚ → FVal
deriving DecidableEq, Repr

/-- The incoming JSON transaction object (`request.json` / one element of the
bulk `transactions` array).  `none` models an absent key.  Values of present
keys are modelled at the types the handlers use them at (amounts numeric,
everything else strings). -/
structure TransactionData where
  transaction_id : Option String
  amount : Option ℚ
  sender_id : Option String
  receiver_id : Option String
  transaction_type : Option String
  timestamp : Option String
  received_currency : Option String
  payment_currency : Option String
  receiver_bank_location : Option String
  sender_bank_location : Option String
deriving DecidableEq, Repr

/-- The `features_dict` literal of `prepare_features` (lines 124-143), in the
source's insertion order, with the key-access defaults (`'USD'`, `'Unknown'`)
already resolved by the caller. -/
def features_dict (seed : Nat) (amount : ℚ) (rid sid ttype rcur pcur rloc sloc : String)
    (ts : DateTime) : List (String × FVal) :=
  [("Amount", .num amount),
   ("Log_amount", .log1p amount),
   ("Receiver_account", .num ((pyHash seed rid % 1000000 : Nat) : ℚ)),
   ("Sender_account", .num ((pyHash seed sid % 1000000 : Nat) : ℚ)),
   ("Payment_type", .num ((pyHash seed ttype % 100 : Nat) : ℚ)),
   ("Received_currency", .num ((pyHash seed rcur % 100 : Nat) : ℚ)),
   ("Hour_sin", .sinTau ((ts.hour : ℚ) / 24)),
   ("Hour_cos", .cosTau ((ts.hour : ℚ) / 24)),
   ("Month_cos", .cosTau ((ts.month : ℚ) / 12)),
   ("Month_sin", .sinTau ((ts.month : ℚ) / 12)),
   ("Day_of_week_sin", .sinTau ((ts.weekday : ℚ) / 7)),
   ("Receiver_bank_location", .num ((pyHash seed rloc % 100 : Nat) : ℚ)),
   ("Day_of_week_cos", .cosTau ((ts.weekday : ℚ) / 7)),
   ("Payment_currency", .num ((pyHash seed pcur % 100 : Nat) : ℚ)),
   ("Is_weekend", .num (if ts.weekday ≥ 5 then 1 else 0)),
   ("Sender_bank_location", .num ((pyHash seed sloc % 100 : Nat) : ℚ)),
   ("Is_night", .num (if ts.hour ≥ 22 ∨ ts.hour ≤ 6 then 1 else 0)),
   ("Amount_rounded", .num (if amount.den = 1 then 1 else 0))]

/-- The `expected_features` column order (lines 146-151). -/
def expected_features : List String :=
  ["Amount", "Log_amount", "Receiver_account", "Sender_account", "Payment_type",
   "Received_currency", "Hour_sin", "Hour_cos", "Month_cos", "Month_sin",
   "Day_of_week_sin", "Receiver_bank_location", "Day_of_week_cos", "Payment_currency",
   "Is_weekend", "Sender_bank_location", "Is_night", "Amount_rounded"]

/-- Column selection `df[expected_features]` (line 154): for each expected
column name, the entry of that name from the built dictionary. -/
def reorder (dict : List (String × FVal)) : List (String × FVal) :=
  expected_features.filterMap fun n => dict.find? fun p => p.1 == n

/-- The dictionary-building part of `prepare_features` (lines 124-156), given
the already-parsed timestamp.  Mirrors the source's evaluation order: the
dictionary literal raises `KeyError` at the first absent required key in
insertion order (`amount`, `receiver_id`, `sender_id`, `transaction_type`);
the key accesses with defaults cannot fail.  The `except` clause of
`prepare_features` re-raises, so errors propagate to the caller as the
exception's message string. -/
def prepare_features_rest (seed : Nat) (ts : DateTime) (td : TransactionData) :
    Except String (List (String × FVal)) :=
  match td.amount with
  | none => .error "KeyError: amount"
  | some amount =>
    match td.receiver_id with
    | none => .error "KeyError: receiver_id"
    | some rid =>
      match td.sender_id with
      | none => .error "KeyError: sender_id"
      | some sid =>
        match td.transaction_type with
        | none => .error "KeyError: transaction_type"
        | some ttype =>
          .ok (reorder (features_dict seed amount rid sid ttype
            (td.received_currency.getD "USD") (td.payment_currency.getD "USD")
            (td.receiver_bank_location.getD "Unknown")
            (td.sender_bank_location.getD "Unknown") ts))

/-- Embeds `prepare_features` (lines 114-160): the timestamp is read and
parsed first (line 121, raising `ValueError` on a present-but-malformed
string; when the key is absent, `datetime.now().isoformat()` is substituted
and parses back to `now`), then `prepare_features_rest` evaluates the rest. -/
def prepare_features (seed : Nat) (now : DateTime) (td : TransactionData) :
    Except String (List (String × FVal)) :=
  match td.timestamp with
  | some s =>
    match fromisoformat s with
    | none => .error ("Invalid isoformat string: " ++ s)
    | some ts => prepare_features_rest seed ts td
  | none => prepare_features_rest seed now td

/-- The numeric counters of the global `monitoring_stats` dictionary
(lines 41-51; the derived `processing_rate` and `uptime_seconds` floats are
untouched by transaction processing and omitted). -/
structure MonitoringStats where
  total_transactions : Nat
  high_risk_count : Nat
  medium_risk_count : Nat
  low_risk_count : Nat
  minimal_risk_count : Nat
  pending_reviews : Nat
  alerts_generated : Nat
deriving DecidableEq, Repr

/-- An entry of `high_risk_transactions` (lines 228-236). -/
structure HighRiskEntry where
  transaction_id : String
  risk_score : ℚ
  risk_level : RiskLevel
  amount : ℚ
  sender_id : String
  receiver_id : String
  timestamp : DateTime
deriving DecidableEq, Repr

/-- An entry of `recent_alerts` (lines 240-249). -/
structure Alert where
  alertType : String
  severity : String
  message : String
  risk_score : ℚ
  amount : ℚ
  sender : String
  receiver : String
  timestamp : DateTime
deriving DecidableEq, Repr

/-- The module-level mutable globals: `monitoring_stats`, `recent_alerts`,
`high_risk_transactions`. -/
structure ServerState where
  stats : MonitoringStats
  recent_alerts : List Alert
  high_risk_transactions : List HighRiskEntry
deriving DecidableEq, Repr

/-- The initial value of `monitoring_stats` (all counters zero). -/
def initialStats : MonitoringStats := ⟨0, 0, 0, 0, 0, 0, 0⟩

/-- Server state at process start: zero counters, empty histories. -/
def initialState : ServerState := ⟨initialStats, [], []⟩

/-- The model capability (`predict_risk` via `model.predict_proba`):
maps a prepared feature row to a risk probability, or fails
(`Model not loaded` when the global `model` is `None`, or whatever the
model raises). -/
def Scorer : Type := List (String × FVal) → Except String ℚ

/-- The successful JSON body returned for one processed transaction
(lines 253-262 and 343-352). -/
structure TxResult where
  transaction_id : String
  risk_score : ℚ
  risk_level : RiskLevel
  compliance_status : String
  requires_review : Bool
  flagged_features : List String
  confidence : ℚ
  processed_at : DateTime
deriving DecidableEq, Repr

/-- A Flask handler outcome: a 200 success body, a 400 client-error body
(`jsonify({'error': ...}), 400`), or a 500 server-error body
(`jsonify({'error': ...}), 500`). -/
inductive ApiResponse where
  | success : TxResult → ApiResponse
  | clientError : String → ApiResponse
  | serverError : String → ApiResponse
deriving DecidableEq, Repr

/-- Whether a response is the 200 success case. -/
def ApiResponse.isSuccess : ApiResponse → Bool
  | .success _ => true
  | _ => false

/-- Whether a response is the 400 caller-error case. -/
def ApiResponse.isClientError : ApiResponse → Bool
  | .clientError _ => true
  | _ => false

/-- The `required_fields` list (lines 184 and 312). -/
def required_fields : List String :=
  ["transaction_id", "amount", "sender_id", "receiver_id", "transaction_type"]

/-- Python `field in tx_data` for the five required keys (the only keys the
validation loops query). -/
def has_field (td : TransactionData) : String → Bool
  | "transaction_id" => td.transaction_id.isSome
  | "amount" => td.amount.isSome
  | "sender_id" => td.sender_id.isSome
  | "receiver_id" => td.receiver_id.isSome
  | "transaction_type" => td.transaction_type.isSome
  | _ => false

/-- The validation loop of `process_transaction` (lines 185-187): the first
required field absent from the record, if any (the loop returns a 400 at the
first miss). -/
def first_missing_field (td : TransactionData) : Option String :=
  required_fields.find? fun f => !(has_field td f)

/-- The rule-based flag computation (lines 203-209 and 335-341):
`large_amount` if amount > 100000, `high_risk_score` if score > 0.8,
`suspicious_pattern` if amount > 50000 and score > 0.6, appended in that
order. -/
def flagged_features (amount : ℚ) (risk_score : ℚ) : List String :=
  (if amount > 100000 then ["large_amount"] else []) ++
  (if risk_score > 4/5 then ["high_risk_score"] else []) ++
  (if amount > 50000 ∧ risk_score > 3/5 then ["suspicious_pattern"] else [])

/-- The successful response body for one transaction (lines 253-262, repeated
verbatim at lines 343-352): risk level, review threshold 0.5, compliance
status, flags and confidence `abs(risk_score - 0.5) * 2`. -/
def build_result (now : DateTime) (tid : String) (amount : ℚ) (risk_score : ℚ) : TxResult :=
  let requires_review : Bool := decide (risk_score ≥ 1/2)
  { transaction_id := tid
    risk_score := risk_score
    risk_level := get_risk_level risk_score
    compliance_status := if requires_review then "PENDING" else "APPROVED"
    requires_review := requires_review
    flagged_features := flagged_features amount risk_score
    confidence := |risk_score - 1/2| * 2
    processed_at := now }

/-- The monitoring-update block of `process_transaction` (lines 211-251):
increments `total_transactions`, the matching level counter, and
`pending_reviews` when review is required; appends to
`high_risk_transactions` when the level is HIGH; appends an alert and
increments `alerts_generated` when the score exceeds 0.8. -/
def record_transaction (now : DateTime) (tid sid rid : String) (amount : ℚ)
    (risk_score : ℚ) (st : ServerState) : ServerState :=
  let risk_level := get_risk_level risk_score
  let s1 := { st.stats with total_transactions := st.stats.total_transactions + 1 }
  let s2 :=
    match risk_level with
    | .HIGH => { s1 with high_risk_count := s1.high_risk_count + 1 }
    | .MEDIUM => { s1 with medium_risk_count := s1.medium_risk_count + 1 }
    | .LOW => { s1 with low_risk_count := s1.low_risk_count + 1 }
    | .MINIMAL => { s1 with minimal_risk_count := s1.minimal_risk_count + 1 }
  let s3 := if risk_score ≥ 1/2 then { s2 with pending_reviews := s2.pending_reviews + 1 } else s2
  let hrt :=
    if risk_level = .HIGH then
      st.high_risk_transactions ++ [⟨tid, risk_score, risk_level, amount, sid, rid, now⟩]
    else st.high_risk_transactions
  let s4 :=
    if risk_score > 4/5 then { s3 with alerts_generated := s3.alerts_generated + 1 } else s3
  let alerts :=
    if risk_score > 4/5 then
      st.recent_alerts ++
        [⟨"HIGH_RISK_TRANSACTION", "HIGH", "High risk transaction detected: " ++ tid,
          risk_score, amount, sid, rid, now⟩]
    else st.recent_alerts
  ⟨s4, alerts, hrt⟩

/-- Embeds the `/api/process_transaction` handler (lines 177-266).  Validation
returns 400 at the first missing required field; exceptions from
`prepare_features` or the model are caught by the handler's `except` and
returned as a 500 with the exception message; on success all monitoring
mutations are applied and the result body returned. -/
def process_transaction (scorer : Scorer) (seed : Nat) (now : DateTime)
    (st : ServerState) (td : TransactionData) : ApiResponse × ServerState :=
  match first_missing_field td with
  | some f => (.clientError ("Missing required field: " ++ f), st)
  | none =>
    match prepare_features seed now td with
    | .error e => (.serverError e, st)
    | .ok features =>
      match scorer features with
      | .error e => (.serverError e, st)
      | .ok risk_score =>
        let tid := td.transaction_id.getD ""
        let amount := td.amount.getD 0
        let sid := td.sender_id.getD ""
        let rid := td.receiver_id.getD ""
        (.success (build_result now tid amount risk_score),
         record_transaction now tid sid rid amount risk_score st)

/-- One element of the bulk `results` array: a success body or an
`{'transaction_id': ..., 'error': ...}` entry. -/
inductive BulkEntry where
  | ok : TxResult → BulkEntry
  | err : String → String → BulkEntry
deriving DecidableEq, Repr

/-- Whether a bulk entry is an error entry. -/
def BulkEntry.isErr : BulkEntry → Bool
  | .err _ _ => true
  | _ => false

/-- The per-item body of the bulk loop (lines 309-358).  The source's
`continue` inside the field-validation loop only advances that inner loop, so
after appending one error entry per missing required field the item still
falls through to `prepare_features`; any exception there (or from the model,
or the `KeyError` on `tx_data['transaction_id']` while building the success
body) is caught by the per-item `except`, which appends a further error
entry.  Only with no missing field and no exception is a single success body
appended. -/
def bulk_item (scorer : Scorer) (seed : Nat) (now : DateTime) (td : TransactionData) :
    List BulkEntry :=
  let tid := td.transaction_id.getD "unknown"
  let validation_errors := required_fields.filterMap fun f =>
    if has_field td f then none
    else some (.err tid ("Missing required field: " ++ f))
  validation_errors ++
    match prepare_features seed now td with
    | .error e => [.err tid e]
    | .ok features =>
      match scorer features with
      | .error e => [.err tid e]
      | .ok risk_score =>
        match td.transaction_id with
        | none => [.err "unknown" "KeyError: transaction_id"]
        | some tid0 => [.ok (build_result now tid0 (td.amount.getD 0) risk_score)]

/-- The aggregate body of the bulk response (lines 360-364). -/
structure BulkResponse where
  results : List BulkEntry
  total_processed : Nat
  successful : Nat
deriving DecidableEq, Repr

/-- Embeds the `/api/bulk_process` handler (lines 297-368).  An empty batch is
a 400; otherwise the per-item entries are concatenated in input order.  The
handler body never reads or writes `monitoring_stats`, `recent_alerts` or
`high_risk_transactions`, so the server state is returned unchanged. -/
def bulk_process_transactions (scorer : Scorer) (seed : Nat) (now : DateTime)
    (st : ServerState) (txs : List TransactionData) :
    Except String BulkResponse × ServerState :=
  if txs.isEmpty then (.error "No transactions provided", st)
  else
    let results := (txs.map (bulk_item scorer seed now)).flatten
    (.ok ⟨results, results.length, (results.filter fun r => !r.isErr).length⟩, st)

/-- Embeds the `/api/monitoring/high-risk` handler (lines 432-444): returns
`high_risk_transactions[:limit]` and its length; the handler never mutates
the state. -/
def get_high_risk_transactions (st : ServerState) (limit : Nat) :
    (List HighRiskEntry × Nat) × ServerState :=
  ((st.high_risk_transactions.take limit, (st.high_risk_transactions.take limit).length), st)

/-- Folding a sequence of single-transaction calls through the server state. -/
def run_transactions (scorer : Scorer) (seed : Nat) (now : DateTime) :
    ServerState → List TransactionData → ServerState
  | st, [] => st
  | st, td :: tds =>
      run_transactions scorer seed now (process_transaction scorer seed now st td).2 tds

/-- Whether every call in a sequence of single-transaction calls succeeds
(each call evaluated in the state left by its predecessors). -/
def all_successful (scorer : Scorer) (seed : Nat) (now : DateTime) :
    ServerState → List TransactionData → Bool
  | _, [] => true
  | st, td :: tds =>
      (process_transaction scorer seed now st td).1.isSuccess &&
        all_successful scorer seed now (process_transaction scorer seed now st td).2 tds

/-- A scorer returning the fixed probability `p` for every feature row
(a loaded model that always answers `p`). -/
def scorerConst (p : ℚ) : Scorer := fun _ => .ok p

/-- A concrete ingestion time: 2024-01-15 10:00:00 (a Monday). -/
def sampleNow : DateTime := ⟨2024, 1, 15, 10, 0, 0⟩

/-- A fully valid transaction record. -/
def tx_valid : TransactionData :=
  ⟨some "t2", some 500, some "a", some "b", some "transfer", none, none, none, none, none⟩

/-- A record missing the required `amount` field. -/
def tx_missing_amount : TransactionData :=
  ⟨some "t1", none, some "a", some "b", some "transfer", none, none, none, none, none⟩

/-- A record whose `timestamp` key is present but not parseable. -/
def tx_bad_timestamp : TransactionData :=
  ⟨some "t3", some 500, some "a", some "b", some "transfer", some "not-a-date",
   none, none, none, none⟩

/-- Modelled from the spec: the mandated FeatureVector field order as the data
model states it ("amount, log-amount, hashed receiver/sender account buckets,
hashed payment-type bucket, hashed currency buckets ×2, sine/cosine encodings
of hour-of-day, month, day-of-week, hashed bank-location buckets ×2, weekend
flag, night flag, rounded-amount flag"), transcribed with the code's column
names.  Under any transcription of that sentence the two currency buckets are
adjacent (positions 5 and 6) and the temporal sine/cosine pairs are
contiguous, which is what the comparison below exercises. -/
def specMandatedOrder : List String :=
  ["Amount", "Log_amount", "Receiver_account", "Sender_account", "Payment_type",
   "Received_currency", "Payment_currency", "Hour_sin", "Hour_cos", "Month_sin",
   "Month_cos", "Day_of_week_sin", "Day_of_week_cos", "Receiver_bank_location",
   "Sender_bank_location", "Is_weekend", "Is_night", "Amount_rounded"]

/-- Modelled from the spec: "the most recent `limit` entries from the
high-risk history in insertion order" — the final `limit` elements of the
history, oldest of those first. -/
def mostRecent (l : List HighRiskEntry) (limit : Nat) : List HighRiskEntry :=
  l.drop (l.length - limit)

/-- A concrete high-risk history entry. -/
def hrA : HighRiskEntry := ⟨"h1", 9/10, .HIGH, 1000, "a", "b", sampleNow⟩

/-- A second, distinct high-risk history entry. -/
def hrB : HighRiskEntry := ⟨"h2", 9/10, .HIGH, 2000, "a", "b", sampleNow⟩

/-- A server state whose high-risk history holds two entries, `hrA` appended
before `hrB`. -/
def stTwo : ServerState := ⟨initialStats, [], [hrA, hrB]⟩

/-- The sum of the four per-level counters. -/
def levelSum (s : MonitoringStats) : Nat :=
  s.high_risk_count + s.medium_risk_count + s.low_risk_count + s.minimal_risk_count

end ACRS

deriving instance DecidableEq for Except

namespace ACRS

/-- `record_transaction` increments the total count by one, the level-counter
sum by one, and `pending_reviews` and the MEDIUM+HIGH sum each by one exactly
when the score reaches the review threshold 0.5. -/
lemma record_transaction_stats (now : DateTime) (tid sid rid : String) (amount p : ℚ)
    (st : ServerState) :
    (record_transaction now tid sid rid amount p st).stats.total_transactions
        = st.stats.total_transactions + 1 ∧
    levelSum (record_transaction now tid sid rid amount p st).stats
        = levelSum st.stats + 1 ∧
    (record_transaction now tid sid rid amount p st).stats.pending_reviews
        = st.stats.pending_reviews + (if 1/2 ≤ p then 1 else 0) ∧
    (record_transaction now tid sid rid amount p st).stats.medium_risk_count
        + (record_transaction now tid sid rid amount p st).stats.high_risk_count
        = st.stats.medium_risk_count + st.stats.high_risk_count
          + (if 1/2 ≤ p then 1 else 0) := by
  simp only [record_transaction, levelSum, get_risk_level]
  split_ifs <;> simp_all <;> first | omega | linarith

/-- A single-transaction call either leaves the state untouched (all error
paths) or applies `record_transaction` for some score. -/
lemma process_transaction_state (scorer : Scorer) (seed : Nat) (now : DateTime)
    (st : ServerState) (td : TransactionData) :
    (process_transaction scorer seed now st td).2 = st ∨
    ∃ p, (process_transaction scorer seed now st td).2
        = record_transaction now (td.transaction_id.getD "") (td.sender_id.getD "")
            (td.receiver_id.getD "") (td.amount.getD 0) p st := by
  unfold process_transaction
  rcases h1 : first_missing_field td with _ | f
  · rcases h2 : prepare_features seed now td with e | fv
    · simp [h1, h2]
    · rcases h3 : scorer fv with e | p
      · simp [h1, h2, h3]
      · simp only [h1, h2, h3]
        exact Or.inr ⟨p, rfl⟩
  · simp [h1]

/-- One single-transaction call preserves both counter invariants. -/
lemma process_transaction_invs (scorer : Scorer) (seed : Nat) (now : DateTime)
    (st : ServerState) (td : TransactionData)
    (h1 : levelSum st.stats = st.stats.total_transactions)
    (h2 : st.stats.pending_reviews
        = st.stats.medium_risk_count + st.stats.high_risk_count) :
    levelSum (process_transaction scorer seed now st td).2.stats
        = (process_transaction scorer seed now st td).2.stats.total_transactions ∧
    (process_transaction scorer seed now st td).2.stats.pending_reviews
        = (process_transaction scorer seed now st td).2.stats.medium_risk_count
          + (process_transaction scorer seed now st td).2.stats.high_risk_count := by
  rcases process_transaction_state scorer seed now st td with h | ⟨p, h⟩
  · rw [h]; exact ⟨h1, h2⟩
  · rw [h]
    obtain ⟨ht, hs, hp, hmh⟩ := record_transaction_stats now (td.transaction_id.getD "")
      (td.sender_id.getD "") (td.receiver_id.getD "") (td.amount.getD 0) p st
    exact ⟨by rw [hs, ht, h1], by rw [hp, hmh, h2]⟩

/-- Both counter invariants hold after any sequence of calls from any state
satisfying them. -/
lemma run_transactions_invs (scorer : Scorer) (seed : Nat) (now : DateTime) :
    ∀ (tds : List TransactionData) (st : ServerState),
      levelSum st.stats = st.stats.total_transactions →
      st.stats.pending_reviews = st.stats.medium_risk_count + st.stats.high_risk_count →
      levelSum (run_transactions scorer seed now st tds).stats
          = (run_transactions scorer seed now st tds).stats.total_transactions ∧
      (run_transactions scorer seed now st tds).stats.pending_reviews
          = (run_transactions scorer seed now st tds).stats.medium_risk_count
            + (run_transactions scorer seed now st tds).stats.high_risk_count
  | [], _, h1, h2 => ⟨h1, h2⟩
  | td :: tds, st, h1, h2 => by
      simp only [run_transactions]
      obtain ⟨g1, g2⟩ := process_transaction_invs scorer seed now st td h1 h2
      exact run_transactions_invs scorer seed now tds _ g1 g2

/-- The names of the reordered feature row are exactly `expected_features`,
whatever the record's values. -/
lemma reorder_features_dict_names (seed : Nat) (amount : ℚ)
    (rid sid ttype rcur pcur rloc sloc : String) (ts : DateTime) :
    (reorder (features_dict seed amount rid sid ttype rcur pcur rloc sloc ts)).map Prod.fst
      = expected_features := rfl

/-- The reordered feature row has exactly 18 entries. -/
lemma reorder_features_dict_length (seed : Nat) (amount : ℚ)
    (rid sid ttype rcur pcur rloc sloc : String) (ts : DateTime) :
    (reorder (features_dict seed amount rid sid ttype rcur pcur rloc sloc ts)).length
      = 18 := rfl

/-- Any successful output of the dictionary-building stage has the
`expected_features` layout. -/
lemma prepare_features_rest_layout (seed : Nat) (ts : DateTime) (td : TransactionData)
    (fv : List (String × FVal)) (hr : prepare_features_rest seed ts td = .ok fv) :
    fv.map Prod.fst = expected_features ∧ fv.length = 18 := by
  unfold prepare_features_rest at hr
  split at hr
  · exact absurd hr (by simp)
  · split at hr
    · exact absurd hr (by simp)
    · split at hr
      · exact absurd hr (by simp)
      · split at hr
        · exact absurd hr (by simp)
        · injection hr with hr2
          subst hr2
          exact ⟨reorder_features_dict_names .., reorder_features_dict_length ..⟩

/-- The result body's review flag is `decide (0.5 ≤ score)`, its status is the
review-driven two-value string, and no other status occurs. -/
lemma build_result_props (now : DateTime) (tid : String) (amount p : ℚ) :
    ((build_result now tid amount p).requires_review = true
        ↔ 1/2 ≤ (build_result now tid amount p).risk_score) ∧
    (build_result now tid amount p).compliance_status
      = (if (build_result now tid amount p).requires_review then "PENDING" else "APPROVED") ∧
    ((build_result now tid amount p).compliance_status = "PENDING" ∨
      (build_result now tid amount p).compliance_status = "APPROVED") := by
  refine ⟨by simp [build_result], by simp [build_result], ?_⟩
  simp only [build_result]
  split <;> simp

/-- A present-but-unparseable timestamp makes `prepare_features` fail with the
parser's `ValueError` message. -/
lemma prepare_features_bad_ts (seed : Nat) (now : DateTime) (td : TransactionData)
    (s : String) (hts : td.timestamp = some s) (hp : fromisoformat s = none) :
    prepare_features seed now td = .error ("Invalid isoformat string: " ++ s) := by
  unfold prepare_features
  simp only [hts, hp]

/-- When the validation loop finds no missing field, every one of the five
required fields is present. -/
lemma first_missing_none_fields (td : TransactionData)
    (hreq : first_missing_field td = none) :
    td.transaction_id.isSome ∧ td.amount.isSome ∧ td.sender_id.isSome ∧
    td.receiver_id.isSome ∧ td.transaction_type.isSome := by
  unfold first_missing_field required_fields at hreq
  rw [List.find?_eq_none] at hreq
  refine ⟨?_, ?_, ?_, ?_, ?_⟩ <;>
    [have := hreq "transaction_id" (by simp); have := hreq "amount" (by simp);
     have := hreq "sender_id" (by simp); have := hreq "receiver_id" (by simp);
     have := hreq "transaction_type" (by simp)] <;>
    simpa [has_field, Option.isSome_iff_ne_none] using this

/-- C1: evaluates the bulk endpoint at the claim's scenario — a batch of N = 2
records whose first record is missing the required `amount` field while every
other item scores successfully.  Contrary to the claim, the code returns
N + 1 = 3 outcome entries with two error entries (both for the malformed item
t1: the `continue` in the validation loop only advances the inner field loop,
so after the validation error entry the item still reaches
`prepare_features`, whose `KeyError` is appended as a second error entry),
and the monitoring state is completely untouched (the bulk handler never
updates the aggregator), so the total transaction count increases by 0, not
N − 1 = 1. -/
theorem C1_bulk_duplicate_error_and_no_stats :
    ((bulk_process_transactions (scorerConst (1/10)) 0 sampleNow initialState
        [tx_missing_amount, tx_valid]).1.map fun r =>
          (r.results.length, r.total_processed,
            (r.results.filter fun e => e.isErr).length)) = Except.ok (3, 3, 2) ∧
    ((bulk_process_transactions (scorerConst (1/10)) 0 sampleNow initialState
        [tx_missing_amount, tx_valid]).1.map fun r => r.results.take 2)
      = Except.ok [.err "t1" "Missing required field: amount", .err "t1" "KeyError: amount"] ∧
    (bulk_process_transactions (scorerConst (1/10)) 0 sampleNow initialState
        [tx_missing_amount, tx_valid]).2 = initialState := by
  decide

/-- C2: after any sequence of successful single-transaction calls starting
from the initial monitoring state, the four per-level counters sum to the
total transaction count. -/
theorem C2_level_counters_sum_total (scorer : Scorer) (seed : Nat) (now : DateTime)
    (tds : List TransactionData)
    (_hsucc : all_successful scorer seed now initialState tds = true) :
    levelSum (run_transactions scorer seed now initialState tds).stats
      = (run_transactions scorer seed now initialState tds).stats.total_transactions :=
  (run_transactions_invs scorer seed now tds initialState rfl rfl).1

/-- Witness for C2 at the concrete batch `[tx_valid]` with a scorer answering
0.1: the run is successful and the invariant holds. -/
theorem C2_witness :
    all_successful (scorerConst (1/10)) 0 sampleNow initialState [tx_valid] = true ∧
    levelSum (run_transactions (scorerConst (1/10)) 0 sampleNow initialState [tx_valid]).stats
      = (run_transactions (scorerConst (1/10)) 0 sampleNow initialState
          [tx_valid]).stats.total_transactions :=
  ⟨by decide, C2_level_counters_sum_total (scorerConst (1/10)) 0 sampleNow [tx_valid] (by decide)⟩

/-- C3: for every probability in [0,1] the classifier assigns MINIMAL exactly
on `p < 0.2`, LOW exactly on `0.2 ≤ p < 0.5`, MEDIUM exactly on
`0.5 ≤ p < 0.8` and HIGH exactly on `p ≥ 0.8` — a partition of [0,1] with no
gap or overlap — and each boundary value 0.2, 0.5, 0.8 lands in the higher
bucket. -/
theorem C3_risk_level_partition (p : ℚ) (_h0 : 0 ≤ p) (_h1 : p ≤ 1) :
    (get_risk_level p = .MINIMAL ↔ p < 1/5) ∧
    (get_risk_level p = .LOW ↔ 1/5 ≤ p ∧ p < 1/2) ∧
    (get_risk_level p = .MEDIUM ↔ 1/2 ≤ p ∧ p < 4/5) ∧
    (get_risk_level p = .HIGH ↔ 4/5 ≤ p) ∧
    get_risk_level (1/5) = .LOW ∧ get_risk_level (1/2) = .MEDIUM ∧
    get_risk_level (4/5) = .HIGH := by
  unfold get_risk_level
  refine ⟨?_, ?_, ?_, ?_, by norm_num, by norm_num, by norm_num⟩ <;>
    (split_ifs with a b c <;> simp <;> try push_neg) <;>
      first
        | linarith
        | (constructor <;> linarith)
        | (intro h2; linarith)

/-- Witness for C3 at the concrete probability 0.3. -/
theorem C3_witness :
    (0 : ℚ) ≤ 3/10 ∧ (3 : ℚ)/10 ≤ 1 ∧
    (get_risk_level (3/10) = .LOW ↔ (1 : ℚ)/5 ≤ 3/10 ∧ (3 : ℚ)/10 < 1/2) :=
  ⟨by norm_num, by norm_num,
    (C3_risk_level_partition (3/10) (by norm_num) (by norm_num)).2.1⟩

/-- C4: evaluates the feature encoder at one fixed record under the hash
salts of two different process runs (modelled as `pyHash` seeds 0 and 1): the
produced feature vectors differ — the categorical buckets depend on the
per-process salt of Python's built-in `hash`, so the encoding is not stable
across process runs as the claim asserts. -/
theorem C4_encoding_varies_with_hash_seed :
    prepare_features 0 sampleNow tx_valid ≠ prepare_features 1 sampleNow tx_valid := by
  decide

/-- C5 counterexample: with two entries in the high-risk history and limit 1,
the endpoint returns the oldest entry (`hrA`), not the most recent one
(`hrB`) as the claim states. -/
theorem C5_not_most_recent :
    (get_high_risk_transactions stTwo 1).1.1
      ≠ mostRecent stTwo.high_risk_transactions 1 := by
  decide

/-- C5 as amended: the endpoint returns the first (oldest) `min limit length`
entries of the high-risk history — an initial segment, in insertion order —
together with their count, and leaves the state unmodified. -/
theorem C5_oldest_first_segment (st : ServerState) (limit : Nat) :
    (get_high_risk_transactions st limit).2 = st ∧
    (get_high_risk_transactions st limit).1.1 ++ st.high_risk_transactions.drop limit
        = st.high_risk_transactions ∧
    (get_high_risk_transactions st limit).1.1.length
        = min limit st.high_risk_transactions.length ∧
    (get_high_risk_transactions st limit).1.2
        = (get_high_risk_transactions st limit).1.1.length := by
  refine ⟨rfl, ?_, ?_, rfl⟩
  · exact List.take_append_drop limit st.high_risk_transactions
  · exact List.length_take ..

/-- C6 counterexample: at a concrete record the produced column order is the
code's `expected_features`, which differs from the mandated order stated in
the spec's data model (in the code the two currency buckets sit at positions
5 and 13, not adjacent; `Month_cos` precedes `Month_sin`; the bank-location
buckets sit at positions 11 and 15). -/
theorem C6_order_differs_from_spec :
    (prepare_features 0 sampleNow tx_valid).map (fun fv => fv.map Prod.fst)
        = .ok expected_features ∧
    expected_features ≠ specMandatedOrder := by
  decide

/-- C6 as amended: every successfully encoded record yields exactly 18 fields
whose positional order is the code's `expected_features` order (Amount,
Log_amount, Receiver_account, Sender_account, Payment_type,
Received_currency, Hour_sin, Hour_cos, Month_cos, Month_sin,
Day_of_week_sin, Receiver_bank_location, Day_of_week_cos, Payment_currency,
Is_weekend, Sender_bank_location, Is_night, Amount_rounded). -/
theorem C6_feature_layout (seed : Nat) (now : DateTime) (td : TransactionData)
    (fv : List (String × FVal)) (h : prepare_features seed now td = .ok fv) :
    fv.map Prod.fst = expected_features ∧ fv.length = 18 := by
  unfold prepare_features at h
  split at h
  · split at h
    · exact absurd h (by simp)
    · exact prepare_features_rest_layout _ _ _ _ h
  · exact prepare_features_rest_layout _ _ _ _ h

/-- Witness for C6 at the concrete record `tx_valid`. -/
theorem C6_feature_layout_witness :
    ∃ fv, prepare_features 0 sampleNow tx_valid = Except.ok fv ∧
      fv.map Prod.fst = expected_features ∧ fv.length = 18 := by
  obtain ⟨fv, hfv⟩ : ∃ fv, prepare_features 0 sampleNow tx_valid = Except.ok fv := ⟨_, rfl⟩
  exact ⟨fv, hfv, C6_feature_layout 0 sampleNow tx_valid fv hfv⟩

/-- C7: whenever single-item processing returns an error (missing required
field, feature-preparation failure, or scoring failure), the entire server
state — all counters, the alert list and the high-risk history — is exactly
as before the call. -/
theorem C7_error_preserves_state (scorer : Scorer) (seed : Nat) (now : DateTime)
    (st : ServerState) (td : TransactionData)
    (h : (process_transaction scorer seed now st td).1.isSuccess = false) :
    (process_transaction scorer seed now st td).2 = st := by
  revert h
  unfold process_transaction
  rcases h1 : first_missing_field td with _ | f
  · rcases h2 : prepare_features seed now td with e | fv
    · simp [h1, h2]
    · rcases h3 : scorer fv with e | p
      · simp [h1, h2, h3]
      · simp [h1, h2, h3, ApiResponse.isSuccess]
  · simp [h1]

/-- Witness for C7 at the concrete record missing `amount`: the call errors
and the state is exactly the initial state. -/
theorem C7_witness :
    (process_transaction (scorerConst (1/10)) 0 sampleNow initialState
        tx_missing_amount).1.isSuccess = false ∧
    (process_transaction (scorerConst (1/10)) 0 sampleNow initialState
        tx_missing_amount).2 = initialState :=
  ⟨by decide,
   C7_error_preserves_state (scorerConst (1/10)) 0 sampleNow initialState
     tx_missing_amount (by decide)⟩

/-- C8: every successful result has its review flag true exactly when the
probability reaches 0.5, and its compliance status is exactly `PENDING` when
review is required and exactly `APPROVED` otherwise, with no third status. -/
theorem C8_review_flag_and_status (scorer : Scorer) (seed : Nat) (now : DateTime)
    (st : ServerState) (td : TransactionData) (r : TxResult)
    (h : (process_transaction scorer seed now st td).1 = .success r) :
    (r.requires_review = true ↔ 1/2 ≤ r.risk_score) ∧
    r.compliance_status = (if r.requires_review then "PENDING" else "APPROVED") ∧
    (r.compliance_status = "PENDING" ∨ r.compliance_status = "APPROVED") := by
  unfold process_transaction at h
  split at h
  · exact absurd h (by simp)
  · split at h
    · exact absurd h (by simp)
    · split at h
      · exact absurd h (by simp)
      · injection h with h2
        subst h2
        exact build_result_props _ _ _ _

/-- Witness for C8 at the concrete record `tx_valid` with a scorer answering
0.7. -/
theorem C8_witness :
    ∃ r, (process_transaction (scorerConst (7/10)) 0 sampleNow initialState tx_valid).1
        = ApiResponse.success r ∧
      (r.requires_review = true ↔ 1/2 ≤ r.risk_score) ∧
      r.compliance_status = (if r.requires_review then "PENDING" else "APPROVED") ∧
      (r.compliance_status = "PENDING" ∨ r.compliance_status = "APPROVED") := by
  obtain ⟨r, hr⟩ : ∃ r, (process_transaction (scorerConst (7/10)) 0 sampleNow initialState
      tx_valid).1 = ApiResponse.success r := ⟨_, rfl⟩
  exact ⟨r, hr, C8_review_flag_and_status (scorerConst (7/10)) 0 sampleNow initialState
    tx_valid r hr⟩

/-- C9 counterexample: at a concrete record whose `timestamp` is present but
unparseable, processing fails through the handler's generic `except` as an
HTTP 500 server error — not with the 400 caller-error classification used
for missing required fields, as the claim's `InvalidRecord` taxonomy
requires. -/
theorem C9_malformed_timestamp_is_server_error :
    (process_transaction (scorerConst (1/10)) 0 sampleNow initialState tx_bad_timestamp).1
        = .serverError "Invalid isoformat string: not-a-date" ∧
    (process_transaction (scorerConst (1/10)) 0 sampleNow initialState
        tx_bad_timestamp).1.isClientError = false := by
  decide

/-- C9 as amended: for a record passing required-field validation, a present
but unparseable timestamp makes processing fail with the generic 500 server
error carrying the parser's message (leaving the state untouched), while a
record with no timestamp field at all succeeds, defaulting the timestamp to
ingestion time, whenever the scorer answers. -/
theorem C9_timestamp_handling (scorer : Scorer) (seed : Nat) (now : DateTime)
    (st : ServerState) (td : TransactionData) (s : String)
    (hreq : first_missing_field td = none) :
    (td.timestamp = some s → fromisoformat s = none →
      (process_transaction scorer seed now st td).1
          = .serverError ("Invalid isoformat string: " ++ s) ∧
      (process_transaction scorer seed now st td).2 = st) ∧
    (td.timestamp = none → (∀ f, ∃ p, scorer f = .ok p) →
      (process_transaction scorer seed now st td).1.isSuccess = true) := by
  constructor
  · intro hts hp
    unfold process_transaction
    rw [hreq, prepare_features_bad_ts seed now td s hts hp]
    exact ⟨rfl, rfl⟩
  · intro hts hsc
    obtain ⟨h1, h2, h3, h4, h5⟩ := first_missing_none_fields td hreq
    obtain ⟨a, ha⟩ := Option.isSome_iff_exists.mp h2
    obtain ⟨ri, hri⟩ := Option.isSome_iff_exists.mp h4
    obtain ⟨si, hsi⟩ := Option.isSome_iff_exists.mp h3
    obtain ⟨tt, htt⟩ := Option.isSome_iff_exists.mp h5
    have hpf : prepare_features seed now td
        = .ok (reorder (features_dict seed a ri si tt
            (td.received_currency.getD "USD") (td.payment_currency.getD "USD")
            (td.receiver_bank_location.getD "Unknown")
            (td.sender_bank_location.getD "Unknown") now)) := by
      unfold prepare_features prepare_features_rest
      simp only [hts, ha, hri, hsi, htt]
    obtain ⟨p, hsp⟩ := hsc (reorder (features_dict seed a ri si tt
      (td.received_currency.getD "USD") (td.payment_currency.getD "USD")
      (td.receiver_bank_location.getD "Unknown")
      (td.sender_bank_location.getD "Unknown") now))
    unfold process_transaction
    simp only [hreq, hpf, hsp]
    rfl

/-- Witness for C9 at `tx_bad_timestamp` (timestamp "not-a-date"). -/
theorem C9_witness :
    (process_transaction (scorerConst (1/10)) 0 sampleNow initialState tx_bad_timestamp).1
        = .serverError ("Invalid isoformat string: " ++ "not-a-date") ∧
    (process_transaction (scorerConst (1/10)) 0 sampleNow initialState tx_bad_timestamp).2
        = initialState :=
  (C9_timestamp_handling (scorerConst (1/10)) 0 sampleNow initialState tx_bad_timestamp
    "not-a-date" (by decide)).1 rfl (by decide)

/-- C10: after any sequence of successful single-transaction calls starting
from the initial monitoring state, `pending_reviews` equals the sum of the
MEDIUM and HIGH counters — the review condition `p ≥ 0.5` holds exactly when
the assigned level is MEDIUM or HIGH. -/
theorem C10_pending_equals_medium_plus_high (scorer : Scorer) (seed : Nat)
    (now : DateTime) (tds : List TransactionData)
    (_hsucc : all_successful scorer seed now initialState tds = true) :
    (run_transactions scorer seed now initialState tds).stats.pending_reviews
      = (run_transactions scorer seed now initialState tds).stats.medium_risk_count
        + (run_transactions scorer seed now initialState tds).stats.high_risk_count :=
  (run_transactions_invs scorer seed now tds initialState rfl rfl).2

/-- Witness for C10 at the concrete batch `[tx_valid]` with a scorer
answering 0.6 (a MEDIUM, review-requiring score). -/
theorem C10_witness :
    all_successful (scorerConst (3/5)) 0 sampleNow initialState [tx_valid] = true ∧
    (run_transactions (scorerConst (3/5)) 0 sampleNow initialState [tx_valid]).stats.pending_reviews
      = (run_transactions (scorerConst (3/5)) 0 sampleNow initialState
          [tx_valid]).stats.medium_risk_count
        + (run_transactions (scorerConst (3/5)) 0 sampleNow initialState
            [tx_valid]).stats.high_risk_count :=
  ⟨by decide,
   C10_pending_equals_medium_plus_high (scorerConst (3/5)) 0 sampleNow [tx_valid] (by decide)⟩

end ACRS
